import Mathlib

/-!
Verification of the `jsoneval-rs` React Native binding layer
(`cpp/json-eval-bridge.cpp` and `android/src/main/cpp/json-eval-rn.cpp`).

The native engine behind the C ABI is external: every `json_eval_*` entry
point is modelled as an oracle parameter.  The binding-layer control flow
(handle registry, result marshaling, async dispatch, promise settlement)
is translated directly from the C++ source.
-/

namespace jsoneval

/-- The `FFIResult` descriptor returned by the native entry points
(`json-eval-bridge.cpp`, lines 12-18).  `dataPtr = none` models a null
`data_ptr`; `some s` models a pointer to the bytes of `s`, with
`data_len = s.length`.  `error = none` models a null `error` pointer. -/
structure FFIResult where
  success : Bool
  dataPtr : Option String
  error : Option String
deriving DecidableEq

/-- The error message extracted from a failed descriptor:
`result.error ? result.error : "Unknown error"` (null check on the
`error` pointer). -/
def errMsg (r : FFIResult) : String :=
  match r.error with
  | some e => e
  | none => "Unknown error"

/-- The marshaling block shared verbatim by the payload-returning
operations:
`if (result.data_ptr && result.data_len > 0) resultStr.assign(...) else resultStr = default`
after the `!result.success` throw. -/
def marshalResult (r : FFIResult) (defaultStr : String) : Except String String :=
  if r.success then
    Except.ok (match r.dataPtr with
      | some s => if 0 < s.length then s else defaultStr
      | none => defaultStr)
  else
    Except.error (errMsg r)

/-- The block shared by the operations that free the payload without
reading it and return a fixed literal (`reloadSchemaAsync`,
`clearCacheAsync`, `resolveLayoutAsync`, `evaluateSubformAsync`,
`enableCacheAsync`, `disableCacheAsync`, ...). -/
def discardResult (r : FFIResult) (out : String) : Except String String :=
  if r.success then Except.ok out else Except.error (errMsg r)

/-- `s.empty() ? nullptr : s.c_str()` — the conversion applied to the
optional string arguments before each native call. -/
def optStr (s : String) : Option String :=
  if s.isEmpty then none else some s

/-- Registry state: the file-scope `handles` map (`std::map<std::string,
JSONEvalHandle*>`, modelled as an association list with distinct keys)
and the `handleCounter` int.  Native instance pointers are modelled as
`Nat`. -/
structure RegState where
  handles : List (String × Nat)
  counter : Nat
deriving DecidableEq

/-- The initial registry: empty map, counter `0`. -/
def regInit : RegState := ⟨[], 0⟩

/-- `handles.find(handleId)`: the registry lookup performed (under the
lock) at the top of every operation. -/
def lookupHandle (st : RegState) (handleId : String) : Option Nat :=
  match st.handles.find? (fun p => p.1 == handleId) with
  | some p => some p.2
  | none => none

/-- `handles[handleId] = handle` — `std::map` assignment: replace the
value at an existing key, otherwise insert the new key. -/
def insertHandle (hs : List (String × Nat)) (handleId : String) (v : Nat) :
    List (String × Nat) :=
  match hs with
  | [] => [(handleId, v)]
  | (k, w) :: rest =>
    if k = handleId then (handleId, v) :: rest
    else (k, w) :: insertHandle rest handleId v

/-- `handles.erase(it)` — removal of the (unique) entry found for a key. -/
def removeHandle (hs : List (String × Nat)) (handleId : String) :
    List (String × Nat) :=
  match hs with
  | [] => []
  | (k, w) :: rest =>
    if k = handleId then rest else (k, w) :: removeHandle rest handleId

/-- The handle-ID scheme: `"handle_" + std::to_string(handleCounter)`. -/
def mkHandleId (n : Nat) : String :=
  "handle_" ++ Nat.repr n

/-- `JsonEvalBridge::create` / `createFromMsgpack` / `createFromCache`
(lines 81-151): the three bodies share this exact registry logic, and
differ only in which native constructor is invoked and in the message of
the `CreationError`; the constructor's result is the oracle argument
`inst` (`none` = null instance). -/
def createRun (st : RegState) (inst : Option Nat) :
    Except String (String × RegState) :=
  match inst with
  | none => Except.error "Failed to create JSONEval instance"
  | some i =>
    let handleId := mkHandleId st.counter
    Except.ok (handleId, ⟨insertHandle st.handles handleId i, st.counter + 1⟩)

/-- `JsonEvalBridge::dispose` (lines 1399-1406): erase the mapping and
free the instance when present, otherwise do nothing.  The function is
total (never raises). -/
def disposeRun (st : RegState) (handleId : String) : RegState :=
  match lookupHandle st handleId with
  | none => st
  | some _ => ⟨removeHandle st.handles handleId, st.counter⟩

/-- `JsonEvalBridge::cancel` (lines 1440-1446): forward to
`json_eval_cancel` when the handle is live, otherwise do nothing; the
registry is never modified. -/
def cancelRun (st : RegState) (handleId : String) : RegState :=
  match lookupHandle st handleId with
  | none => st
  | some _ => st

/-- `JsonEvalBridge::isCacheEnabled` (lines 866-875): returns `false`
when the handle is unknown, otherwise `json_eval_is_cache_enabled != 0`. -/
def isCacheEnabledRun (st : RegState) (handleId : String)
    (json_eval_is_cache_enabled : Nat → Int) : Bool :=
  match lookupHandle st handleId with
  | none => false
  | some inst => json_eval_is_cache_enabled inst != 0

/-- The lookup-or-throw prologue shared verbatim by every worker lambda:
`auto it = handles.find(handleId); if (it == handles.end()) throw
std::runtime_error("Invalid handle");`. -/
def withHandle (st : RegState) (handleId : String)
    (k : Nat → Except String String) : Except String String :=
  match lookupHandle st handleId with
  | none => Except.error "Invalid handle"
  | some inst => k inst

/-- `JsonEvalBridge::compileLogic` (lines 213-229): synchronous; throws
on unknown handle; throws when the native compiler returns the reserved
ID `0`; otherwise returns the 64-bit ID unchanged. -/
def compileLogicRun (st : RegState) (handleId logicStr : String)
    (json_eval_compile_logic : Nat → String → Nat) : Except String Nat :=
  match lookupHandle st handleId with
  | none => Except.error "Invalid handle"
  | some inst =>
    let logicId := json_eval_compile_logic inst logicStr
    if logicId = 0 then
      Except.error "Failed to compile logic (received ID 0)"
    else
      Except.ok logicId

/-- `JsonEvalBridge::setTimezoneOffset` (lines 1425-1436): synchronous;
throws on unknown handle; the native call returns void. -/
def setTimezoneOffsetRun (st : RegState) (handleId : String)
    (_offsetMinutes : Int) : Except String Unit :=
  match lookupHandle st handleId with
  | none => Except.error "Invalid handle"
  | some _ => Except.ok ()

/-- Worker of `JsonEvalBridge::evaluateAsync` (lines 165-211): evaluate,
then fetch the evaluated schema; each step throws on native failure; the
schema payload marshals with default `"{}"`. -/
def evaluateAsyncRun (st : RegState) (handleId data context pathsJson : String)
    (json_eval_evaluate : Nat → String → Option String → Option String → FFIResult)
    (json_eval_get_evaluated_schema : Nat → Bool → FFIResult) :
    Except String String :=
  withHandle st handleId fun inst =>
    let evalResult := json_eval_evaluate inst data (optStr context) (optStr pathsJson)
    if evalResult.success then
      marshalResult (json_eval_get_evaluated_schema inst true) "\x7b\x7d"
    else
      Except.error (errMsg evalResult)

/-- Worker of `JsonEvalBridge::runLogicAsync` (lines 231-267). -/
def runLogicAsyncRun (st : RegState) (handleId : String) (logicId : Nat)
    (data context : String)
    (json_eval_run_logic : Nat → Nat → Option String → Option String → FFIResult) :
    Except String String :=
  withHandle st handleId fun inst =>
    marshalResult (json_eval_run_logic inst logicId (optStr data) (optStr context)) "\x7b\x7d"

/-- Worker of `JsonEvalBridge::validateAsync` (lines 269-301). -/
def validateAsyncRun (st : RegState) (handleId data context : String)
    (json_eval_validate : Nat → String → Option String → FFIResult) :
    Except String String :=
  withHandle st handleId fun inst =>
    marshalResult (json_eval_validate inst data (optStr context)) "\x7b\x7d"

/-- Worker of `JsonEvalBridge::evaluateLogicAsync` (lines 303-330): the
only async operation that takes no handle; default `"null"`. -/
def evaluateLogicAsyncRun (logicStr data context : String)
    (json_eval_evaluate_logic_pure : String → Option String → Option String → FFIResult) :
    Except String String :=
  marshalResult (json_eval_evaluate_logic_pure logicStr (optStr data) (optStr context)) "null"

/-- Worker of `JsonEvalBridge::evaluateDependentsAsync` (lines 332-373):
empty payload defaults to `"{}"`. -/
def evaluateDependentsAsyncRun (st : RegState)
    (handleId changedPathsJson data context : String) (reEvaluate : Bool)
    (json_eval_evaluate_dependents :
      Nat → String → Option String → Option String → Nat → FFIResult) :
    Except String String :=
  withHandle st handleId fun inst =>
    marshalResult
      (json_eval_evaluate_dependents inst changedPathsJson (optStr data)
        (optStr context) (if reEvaluate then 1 else 0)) "\x7b\x7d"

/-- Worker of `JsonEvalBridge::getEvaluatedSchemaAsync` (lines 375-405). -/
def getEvaluatedSchemaAsyncRun (st : RegState) (handleId : String)
    (skipLayout : Bool) (json_eval_get_evaluated_schema : Nat → Bool → FFIResult) :
    Except String String :=
  withHandle st handleId fun inst =>
    marshalResult (json_eval_get_evaluated_schema inst skipLayout) "\x7b\x7d"

/-- Worker of `JsonEvalBridge::getEvaluatedSchemaMsgpackAsync`
(lines 407-437): binary payload, empty default `""`. -/
def getEvaluatedSchemaMsgpackAsyncRun (st : RegState) (handleId : String)
    (skipLayout : Bool)
    (json_eval_get_evaluated_schema_msgpack : Nat → Bool → FFIResult) :
    Except String String :=
  withHandle st handleId fun inst =>
    marshalResult (json_eval_get_evaluated_schema_msgpack inst skipLayout) ""

/-- Worker of `JsonEvalBridge::getSchemaValueAsync` (lines 439-468). -/
def getSchemaValueAsyncRun (st : RegState) (handleId : String)
    (json_eval_get_schema_value : Nat → FFIResult) : Except String String :=
  withHandle st handleId fun inst =>
    marshalResult (json_eval_get_schema_value inst) "\x7b\x7d"

/-- Worker of `JsonEvalBridge::getEvaluatedSchemaWithoutParamsAsync`
(lines 470-500). -/
def getEvaluatedSchemaWithoutParamsAsyncRun (st : RegState) (handleId : String)
    (skipLayout : Bool)
    (json_eval_get_evaluated_schema_without_params : Nat → Bool → FFIResult) :
    Except String String :=
  withHandle st handleId fun inst =>
    marshalResult (json_eval_get_evaluated_schema_without_params inst skipLayout) "\x7b\x7d"

/-- Worker of `JsonEvalBridge::getEvaluatedSchemaByPathAsync`
(lines 502-533): default `"null"`. -/
def getEvaluatedSchemaByPathAsyncRun (st : RegState) (handleId path : String)
    (skipLayout : Bool)
    (json_eval_get_evaluated_schema_by_path : Nat → String → Bool → FFIResult) :
    Except String String :=
  withHandle st handleId fun inst =>
    marshalResult (json_eval_get_evaluated_schema_by_path inst path skipLayout) "null"

/-- Worker of `JsonEvalBridge::getEvaluatedSchemaByPathsAsync`
(lines 535-567): `format` passes through `static_cast<uint8_t>`. -/
def getEvaluatedSchemaByPathsAsyncRun (st : RegState) (handleId pathsJson : String)
    (skipLayout : Bool) (format : Nat)
    (json_eval_get_evaluated_schema_by_paths : Nat → String → Bool → Nat → FFIResult) :
    Except String String :=
  withHandle st handleId fun inst =>
    marshalResult
      (json_eval_get_evaluated_schema_by_paths inst pathsJson skipLayout (format % 256))
      "\x7b\x7d"

/-- Worker of `JsonEvalBridge::getSchemaByPathAsync` (lines 569-599):
default `"null"`. -/
def getSchemaByPathAsyncRun (st : RegState) (handleId path : String)
    (json_eval_get_schema_by_path : Nat → String → FFIResult) :
    Except String String :=
  withHandle st handleId fun inst =>
    marshalResult (json_eval_get_schema_by_path inst path) "null"

/-- Worker of `JsonEvalBridge::getSchemaByPathsAsync` (lines 601-632). -/
def getSchemaByPathsAsyncRun (st : RegState) (handleId pathsJson : String)
    (format : Nat) (json_eval_get_schema_by_paths : Nat → String → Nat → FFIResult) :
    Except String String :=
  withHandle st handleId fun inst =>
    marshalResult (json_eval_get_schema_by_paths inst pathsJson (format % 256)) "\x7b\x7d"

/-- Worker of `JsonEvalBridge::reloadSchemaAsync` (lines 634-661): the
payload is freed unread and the literal `"{}"` is returned. -/
def reloadSchemaAsyncRun (st : RegState) (handleId schema context data : String)
    (json_eval_reload_schema : Nat → String → Option String → Option String → FFIResult) :
    Except String String :=
  withHandle st handleId fun inst =>
    discardResult (json_eval_reload_schema inst schema (optStr context) (optStr data))
      "\x7b\x7d"

/-- Worker of `JsonEvalBridge::reloadSchemaMsgpackAsync` (lines 663-696);
the MessagePack bytes are modelled as a list of byte values. -/
def reloadSchemaMsgpackAsyncRun (st : RegState) (handleId : String)
    (schemaMsgpack : List Nat) (context data : String)
    (json_eval_reload_schema_msgpack :
      Nat → List Nat → Option String → Option String → FFIResult) :
    Except String String :=
  withHandle st handleId fun inst =>
    discardResult
      (json_eval_reload_schema_msgpack inst schemaMsgpack (optStr context) (optStr data))
      "\x7b\x7d"

/-- Worker of `JsonEvalBridge::reloadSchemaFromCacheAsync` (lines 698-730). -/
def reloadSchemaFromCacheAsyncRun (st : RegState)
    (handleId cacheKey context data : String)
    (json_eval_reload_schema_from_cache :
      Nat → String → Option String → Option String → FFIResult) :
    Except String String :=
  withHandle st handleId fun inst =>
    discardResult
      (json_eval_reload_schema_from_cache inst cacheKey (optStr context) (optStr data))
      "\x7b\x7d"

/-- Worker of `JsonEvalBridge::cacheStatsAsync` (lines 732-761). -/
def cacheStatsAsyncRun (st : RegState) (handleId : String)
    (json_eval_cache_stats : Nat → FFIResult) : Except String String :=
  withHandle st handleId fun inst =>
    marshalResult (json_eval_cache_stats inst) "\x7b\x7d"

/-- Worker of `JsonEvalBridge::clearCacheAsync` (lines 763-785): payload
freed unread, literal `"{}"` returned. -/
def clearCacheAsyncRun (st : RegState) (handleId : String)
    (json_eval_clear_cache : Nat → FFIResult) : Except String String :=
  withHandle st handleId fun inst =>
    discardResult (json_eval_clear_cache inst) "\x7b\x7d"

/-- Worker of `JsonEvalBridge::cacheLenAsync` (lines 787-816): textual
integer payload, empty default `"0"`. -/
def cacheLenAsyncRun (st : RegState) (handleId : String)
    (json_eval_cache_len : Nat → FFIResult) : Except String String :=
  withHandle st handleId fun inst =>
    marshalResult (json_eval_cache_len inst) "0"

/-- Worker of `JsonEvalBridge::enableCacheAsync` (lines 818-840): payload
freed unread, empty string returned. -/
def enableCacheAsyncRun (st : RegState) (handleId : String)
    (json_eval_enable_cache : Nat → FFIResult) : Except String String :=
  withHandle st handleId fun inst =>
    discardResult (json_eval_enable_cache inst) ""

/-- Worker of `JsonEvalBridge::disableCacheAsync` (lines 842-864). -/
def disableCacheAsyncRun (st : RegState) (handleId : String)
    (json_eval_disable_cache : Nat → FFIResult) : Except String String :=
  withHandle st handleId fun inst =>
    discardResult (json_eval_disable_cache inst) ""

/-- Worker of `JsonEvalBridge::resolveLayoutAsync` (lines 877-900):
payload freed unread, literal `"{}"` returned. -/
def resolveLayoutAsyncRun (st : RegState) (handleId : String) (evaluate : Bool)
    (json_eval_resolve_layout : Nat → Bool → FFIResult) : Except String String :=
  withHandle st handleId fun inst =>
    discardResult (json_eval_resolve_layout inst evaluate) "\x7b\x7d"

/-- Worker of `JsonEvalBridge::compileAndRunLogicAsync` (lines 902-936):
default `"null"`. -/
def compileAndRunLogicAsyncRun (st : RegState) (handleId logicStr data context : String)
    (json_eval_compile_and_run_logic :
      Nat → String → Option String → Option String → FFIResult) :
    Except String String :=
  withHandle st handleId fun inst =>
    marshalResult
      (json_eval_compile_and_run_logic inst logicStr (optStr data) (optStr context))
      "null"

/-- Worker of `JsonEvalBridge::validatePathsAsync` (lines 938-972). -/
def validatePathsAsyncRun (st : RegState) (handleId data context pathsJson : String)
    (json_eval_validate_paths : Nat → String → Option String → Option String → FFIResult) :
    Except String String :=
  withHandle st handleId fun inst =>
    marshalResult
      (json_eval_validate_paths inst data (optStr context) (optStr pathsJson)) "\x7b\x7d"

/-- Worker of `JsonEvalBridge::evaluateSubformAsync` (lines 978-1012):
payload freed unread, literal `"{}"` returned. -/
def evaluateSubformAsyncRun (st : RegState)
    (handleId subformPath data context pathsJson : String)
    (json_eval_evaluate_subform :
      Nat → String → String → Option String → Option String → FFIResult) :
    Except String String :=
  withHandle st handleId fun inst =>
    discardResult
      (json_eval_evaluate_subform inst subformPath data (optStr context) (optStr pathsJson))
      "\x7b\x7d"

/-- Worker of `JsonEvalBridge::validateSubformAsync` (lines 1014-1046):
empty payload defaults to the structured no-errors object. -/
def validateSubformAsyncRun (st : RegState) (handleId subformPath data context : String)
    (json_eval_validate_subform : Nat → String → String → Option String → FFIResult) :
    Except String String :=
  withHandle st handleId fun inst =>
    marshalResult (json_eval_validate_subform inst subformPath data (optStr context))
      "\x7b\"hasError\":false,\"errors\":[]\x7d"

/-- Worker of `JsonEvalBridge::evaluateDependentsSubformAsync`
(lines 1048-1083): empty payload defaults to `"[]"`. -/
def evaluateDependentsSubformAsyncRun (st : RegState)
    (handleId subformPath changedPath data context : String) (reEvaluate : Bool)
    (json_eval_evaluate_dependents_subform :
      Nat → String → String → Option String → Option String → Nat → FFIResult) :
    Except String String :=
  withHandle st handleId fun inst =>
    marshalResult
      (json_eval_evaluate_dependents_subform inst subformPath changedPath
        (optStr data) (optStr context) (if reEvaluate then 1 else 0)) "[]"

/-- Worker of `JsonEvalBridge::resolveLayoutSubformAsync` (lines 1085-1109):
payload freed unread, literal `"{}"` returned. -/
def resolveLayoutSubformAsyncRun (st : RegState) (handleId subformPath : String)
    (evaluate : Bool)
    (json_eval_resolve_layout_subform : Nat → String → Bool → FFIResult) :
    Except String String :=
  withHandle st handleId fun inst =>
    discardResult (json_eval_resolve_layout_subform inst subformPath evaluate) "\x7b\x7d"

/-- Worker of `JsonEvalBridge::getEvaluatedSchemaSubformAsync`
(lines 1111-1141). -/
def getEvaluatedSchemaSubformAsyncRun (st : RegState) (handleId subformPath : String)
    (resolveLayout : Bool)
    (json_eval_get_evaluated_schema_subform : Nat → String → Bool → FFIResult) :
    Except String String :=
  withHandle st handleId fun inst =>
    marshalResult (json_eval_get_evaluated_schema_subform inst subformPath resolveLayout)
      "\x7b\x7d"

/-- Worker of `JsonEvalBridge::getSchemaValueSubformAsync` (lines 1143-1172). -/
def getSchemaValueSubformAsyncRun (st : RegState) (handleId subformPath : String)
    (json_eval_get_schema_value_subform : Nat → String → FFIResult) :
    Except String String :=
  withHandle st handleId fun inst =>
    marshalResult (json_eval_get_schema_value_subform inst subformPath) "\x7b\x7d"

/-- Worker of `JsonEvalBridge::getEvaluatedSchemaWithoutParamsSubformAsync`
(lines 1174-1204). -/
def getEvaluatedSchemaWithoutParamsSubformAsyncRun (st : RegState)
    (handleId subformPath : String) (resolveLayout : Bool)
    (json_eval_get_evaluated_schema_without_params_subform :
      Nat → String → Bool → FFIResult) : Except String String :=
  withHandle st handleId fun inst =>
    marshalResult
      (json_eval_get_evaluated_schema_without_params_subform inst subformPath resolveLayout)
      "\x7b\x7d"

/-- Worker of `JsonEvalBridge::getEvaluatedSchemaByPathSubformAsync`
(lines 1206-1237): default `"null"`. -/
def getEvaluatedSchemaByPathSubformAsyncRun (st : RegState)
    (handleId subformPath schemaPath : String) (skipLayout : Bool)
    (json_eval_get_evaluated_schema_by_path_subform :
      Nat → String → String → Bool → FFIResult) : Except String String :=
  withHandle st handleId fun inst =>
    marshalResult
      (json_eval_get_evaluated_schema_by_path_subform inst subformPath schemaPath skipLayout)
      "null"

/-- Worker of `JsonEvalBridge::getEvaluatedSchemaByPathsSubformAsync`
(lines 1239-1271). -/
def getEvaluatedSchemaByPathsSubformAsyncRun (st : RegState)
    (handleId subformPath schemaPathsJson : String) (skipLayout : Bool) (format : Nat)
    (json_eval_get_evaluated_schema_by_paths_subform :
      Nat → String → String → Bool → Nat → FFIResult) : Except String String :=
  withHandle st handleId fun inst =>
    marshalResult
      (json_eval_get_evaluated_schema_by_paths_subform inst subformPath schemaPathsJson
        skipLayout (format % 256)) "\x7b\x7d"

/-- Worker of `JsonEvalBridge::getSubformPathsAsync` (lines 1273-1301):
default `"[]"`. -/
def getSubformPathsAsyncRun (st : RegState) (handleId : String)
    (json_eval_get_subform_paths : Nat → FFIResult) : Except String String :=
  withHandle st handleId fun inst =>
    marshalResult (json_eval_get_subform_paths inst) "[]"

/-- Worker of `JsonEvalBridge::getSchemaByPathSubformAsync`
(lines 1303-1333): default `"null"`. -/
def getSchemaByPathSubformAsyncRun (st : RegState)
    (handleId subformPath schemaPath : String)
    (json_eval_get_schema_by_path_subform : Nat → String → String → FFIResult) :
    Except String String :=
  withHandle st handleId fun inst =>
    marshalResult (json_eval_get_schema_by_path_subform inst subformPath schemaPath) "null"

/-- Worker of `JsonEvalBridge::getSchemaByPathsSubformAsync`
(lines 1335-1366). -/
def getSchemaByPathsSubformAsyncRun (st : RegState)
    (handleId subformPath schemaPathsJson : String) (format : Nat)
    (json_eval_get_schema_by_paths_subform : Nat → String → String → Nat → FFIResult) :
    Except String String :=
  withHandle st handleId fun inst =>
    marshalResult
      (json_eval_get_schema_by_paths_subform inst subformPath schemaPathsJson (format % 256))
      "\x7b\x7d"

/-- Worker of `JsonEvalBridge::hasSubformAsync` (lines 1368-1397):
default `"false"`. -/
def hasSubformAsyncRun (st : RegState) (handleId subformPath : String)
    (json_eval_has_subform : Nat → String → FFIResult) : Except String String :=
  withHandle st handleId fun inst =>
    marshalResult (json_eval_has_subform inst subformPath) "false"

/-- Worker of `JsonEvalBridge::setTimezoneOffsetAsync` (lines 1408-1423):
the native call returns void; the worker returns the literal `"{}"`. -/
def setTimezoneOffsetAsyncRun (st : RegState) (handleId : String)
    (_offsetMinutes : Int) : Except String String :=
  withHandle st handleId fun _ => Except.ok "\x7b\x7d"

/-- `JsonEvalBridge::version` (lines 1448-1452):
`return ver ? ver : "unknown"` where `ver` is the statically-owned
result of `json_eval_version` (`none` = null pointer). -/
def versionRun (json_eval_version : Option String) : String :=
  match json_eval_version with
  | some ver => ver
  | none => "unknown"

/-- Release operations of the native library. -/
inductive ReleaseCall where
  | freeResult
  | freeString
deriving DecidableEq

/-- The release operations invoked by the straight-line body of
`JsonEvalBridge::version`: it performs none (the comment in the source
notes the version string is static and must not be freed). -/
def versionReleaseCalls (_json_eval_version : Option String) :
    List ReleaseCall := []

/-- A settlement of the host-side completion token (React Native
`Promise`): `resolve` with a string, `resolve` with a boxed integer
(`nativeCacheLenAsync` only), or `reject(code, message)`. -/
inductive Settlement where
  | resolved (result : String)
  | resolvedInt (value : Int)
  | rejected (code : String) (message : String)
deriving DecidableEq

/-- The worker body of `JsonEvalBridge::runAsync` (lines 153-163)
translated to the `(result, error)` pair passed to the callback:
`callback(result, "")` on success, `callback("", e.what())` when the
lambda throws. -/
def runAsyncCallback (run : Except String String) : String × String :=
  match run with
  | Except.ok r => (r, "")
  | Except.error e => ("", e)

/-- The settlement step of `runAsyncWithPromise`
(`json-eval-rn.cpp`, lines 84-108): resolve when the error component is
empty, otherwise reject with the call-site error code. -/
def settlePromise (errorCode : String) (cb : String × String) : Settlement :=
  if cb.2.isEmpty then Settlement.resolved cb.1
  else Settlement.rejected errorCode cb.2

/-- Restricted model of `std::stoi` as used in `nativeCacheLenAsync`
(line 511): parse a leading run of decimal digits; `none` models the
`std::invalid_argument` thrown when the string does not start with a
digit (sign and whitespace handling are irrelevant to the payloads the
bridge produces and are omitted). -/
def stoiDigits (cs : List Char) (acc : Nat) : Nat :=
  match cs with
  | [] => acc
  | c :: rest => if c.isDigit then stoiDigits rest (acc * 10 + (c.toNat - 48)) else acc

/-- See `stoiDigits`. -/
def stoiOpt (s : String) : Option Int :=
  match s.data with
  | [] => none
  | c :: _ => if c.isDigit then some (Int.ofNat (stoiDigits s.data 0)) else none

/-- A host-context callback invocation: the settlements it performs and,
when it throws before completing, the exception message (`none` = it ran
to completion). -/
def CallbackModel : Type := String × String → List Settlement × Option String

/-- The generic promise callback installed by `runAsyncWithPromise`
(lines 95-107): settles exactly once and never throws. -/
def genericPromiseCallback (errorCode : String) : CallbackModel :=
  fun cb => ([settlePromise errorCode cb], none)

/-- The promise callback of `nativeCacheLenAsync` (lines 505-521): on an
empty error component it parses the payload with `std::stoi` and
resolves with the boxed integer; a parse failure throws before any
settlement; a non-empty error component rejects with
`"CACHE_LEN_ERROR"`. -/
def cacheLenPromiseCallback : CallbackModel :=
  fun cb =>
    if cb.2.isEmpty then
      match stoiOpt cb.1 with
      | some n => ([Settlement.resolvedInt n], none)
      | none => ([], some "stoi")
    else
      ([Settlement.rejected "CACHE_LEN_ERROR" cb.2], none)

/-- The full thread body of `runAsync` (lines 155-162) with the callback
modelled explicitly: on a successful run the callback is invoked with
`(result, "")`; if that invocation throws, the `catch` block invokes the
callback again with `("", e.what())`; when the run itself throws, the
`catch` block invokes the callback with `("", e.what())`, and a throw
out of that invocation escapes the thread (terminating it with no
further settlement).  The value is the list of settlements performed. -/
def runAsyncDispatch (run : Except String String) (callback : CallbackModel) :
    List Settlement :=
  match run with
  | Except.ok r =>
    match callback (r, "") with
    | (settled, none) => settled
    | (settled, some e) => settled ++ (callback ("", e)).1
  | Except.error e => (callback ("", e)).1

/-- Bit length of a natural number below `2 ^ 64`, with explicit fuel so
that the definition is structural. -/
def bitLenAux (fuel n : Nat) : Nat :=
  match fuel with
  | 0 => 0
  | fuel + 1 => if n = 0 then 0 else bitLenAux fuel (n / 2) + 1

/-- See `bitLenAux`. -/
def bitLen (n : Nat) : Nat := bitLenAux 64 n

/-- Exact integer model of `static_cast<jdouble>` applied to a `uint64_t`
(`json-eval-rn.cpp`, line 213): IEEE-754 binary64 conversion, i.e.
round-to-nearest-even onto a 53-bit significand.  Every `uint64_t` is
finite in binary64, so the result is again a natural number. -/
def toDouble64 (n : Nat) : Nat :=
  let b := bitLen n
  if b ≤ 53 then n
  else
    let s := b - 53
    let q := n / 2 ^ s
    let r := n % 2 ^ s
    let half := 2 ^ (s - 1)
    let q' :=
      if half < r then q + 1
      else if r < half then q
      else if q % 2 = 0 then q else q + 1
    q' * 2 ^ s

/-- `Java_com_jsonevalrs_JsonEvalRsModule_nativeCompileLogic`
(`json-eval-rn.cpp`, lines 202-219): the bridge result converted with
`static_cast<jdouble>`; a bridge throw surfaces as a Java exception. -/
def nativeCompileLogicRun (st : RegState) (handleId logicStr : String)
    (json_eval_compile_logic : Nat → String → Nat) : Except String Nat :=
  (compileLogicRun st handleId logicStr json_eval_compile_logic).map toDouble64

/-- One registry-mutating host call, with the native constructor's result
as oracle data for `create`. -/
inductive RegOp where
  | create (inst : Option Nat)
  | dispose (handleId : String)

/-- Apply one operation to the registry, recording each successfully
issued handle ID. -/
def applyRegOp (s : RegState × List String) (op : RegOp) : RegState × List String :=
  match op with
  | RegOp.create inst =>
    match createRun s.1 inst with
    | Except.ok (handleId, st') => (st', s.2 ++ [handleId])
    | Except.error _ => s
  | RegOp.dispose handleId => (disposeRun s.1 handleId, s.2)

/-- Run a sequence of create/dispose calls from the initial registry,
returning the final state and the IDs issued, in order. -/
def runRegOps (ops : List RegOp) : RegState × List String :=
  ops.foldl applyRegOp (regInit, [])

/-! ### Injectivity of the handle-ID scheme -/

/-- Numeric value of a decimal digit character. -/
def dval (c : Char) : Nat := c.toNat - 48

/-- Value of a most-significant-first decimal digit string. -/
def valDigits (l : List Char) : Nat := l.foldl (fun a c => a * 10 + dval c) 0

lemma foldl_dval (l : List Char) (a : Nat) :
    l.foldl (fun a c => a * 10 + dval c) a = a * 10 ^ l.length + valDigits l := by
  induction l generalizing a with
  | nil => simp [valDigits]
  | cons c l ih =>
    have hv : valDigits (c :: l) = dval c * 10 ^ l.length + valDigits l := by
      simpa [valDigits, List.foldl] using ih (dval c)
    simp only [List.foldl, List.length_cons, hv]
    rw [ih (a * 10 + dval c)]
    ring

lemma dval_digitChar (m : Nat) (h : m < 10) : dval (Nat.digitChar m) = m := by
  interval_cases m <;> rfl

lemma valDigits_toDigitsCore (fuel : Nat) :
    ∀ n ds, n < fuel →
      valDigits (Nat.toDigitsCore 10 fuel n ds) = n * 10 ^ ds.length + valDigits ds := by
  induction fuel with
  | zero => exact fun n ds h => absurd h (Nat.not_lt_zero n)
  | succ fuel ih =>
    intro n ds h
    have hm : n % 10 < 10 := Nat.mod_lt _ (by omega)
    have hcons : valDigits (Nat.digitChar (n % 10) :: ds) =
        n % 10 * 10 ^ ds.length + valDigits ds := by
      simpa [valDigits, List.foldl, dval_digitChar _ hm] using foldl_dval ds (n % 10)
    by_cases h0 : n / 10 = 0
    · have hn : n < 10 := by omega
      simp only [Nat.toDigitsCore, h0, if_true]
      rw [hcons, Nat.mod_eq_of_lt hn]
    · have hlt : n / 10 < fuel := by
        have h1 : 0 < n := by
          rcases Nat.eq_zero_or_pos n with h' | h'
          · exact absurd (by simp [h']) h0
          · exact h'
        have := Nat.div_lt_self h1 (by omega : 1 < 10)
        omega
      simp only [Nat.toDigitsCore, h0, if_false]
      rw [ih (n / 10) (Nat.digitChar (n % 10) :: ds) hlt]
      simp only [List.length_cons, hcons]
      have hdm : n / 10 * 10 + n % 10 = n := by omega
      have : n / 10 * 10 ^ (ds.length + 1) + (n % 10 * 10 ^ ds.length + valDigits ds) =
          (n / 10 * 10 + n % 10) * 10 ^ ds.length + valDigits ds := by ring
      rw [this, hdm]

lemma valDigits_toDigits (n : Nat) : valDigits (Nat.toDigits 10 n) = n := by
  unfold Nat.toDigits
  rw [valDigits_toDigitsCore (n + 1) n [] (Nat.lt_succ_self n)]
  simp [valDigits]

lemma repr_inj {n m : Nat} (h : Nat.repr n = Nat.repr m) : n = m := by
  have hd : Nat.toDigits 10 n = Nat.toDigits 10 m := by
    have := congrArg String.data h
    simpa [Nat.repr, List.asString] using this
  have hv := congrArg valDigits hd
  rwa [valDigits_toDigits, valDigits_toDigits] at hv

lemma mkHandleId_inj : Function.Injective mkHandleId := by
  intro a b h
  apply repr_inj
  have hd := congrArg String.data h
  simp only [mkHandleId, String.data_append] at hd
  have hr : (Nat.repr a).data = (Nat.repr b).data := List.append_cancel_left hd
  cases ha : Nat.repr a with
  | mk da =>
    cases hb : Nat.repr b with
    | mk db =>
      rw [ha, hb] at hr
      exact congrArg String.mk hr

/-! ### Registry lemmas -/

lemma insertHandle_keys_of_not_mem (hs : List (String × Nat)) (handleId : String)
    (v : Nat) (h : handleId ∉ hs.map Prod.fst) :
    (insertHandle hs handleId v).map Prod.fst = hs.map Prod.fst ++ [handleId] := by
  induction hs with
  | nil => rfl
  | cons p rest ih =>
    obtain ⟨k, w⟩ := p
    simp only [List.map_cons, List.mem_cons] at h
    push_neg at h
    have hk : ¬k = handleId := fun hk => h.1 hk.symm
    simp only [insertHandle, if_neg hk, List.map_cons, ih h.2, List.cons_append]

lemma mem_insertHandle (hs : List (String × Nat)) (handleId : String) (v : Nat) :
    ∀ p ∈ insertHandle hs handleId v, p = (handleId, v) ∨ p ∈ hs := by
  induction hs with
  | nil => simp [insertHandle]
  | cons q rest ih =>
    obtain ⟨k, w⟩ := q
    intro p hp
    simp only [insertHandle] at hp
    by_cases hk : k = handleId
    · rw [if_pos hk] at hp
      rcases List.mem_cons.mp hp with h1 | h1
      · exact Or.inl h1
      · exact Or.inr (List.mem_cons_of_mem _ h1)
    · rw [if_neg hk] at hp
      rcases List.mem_cons.mp hp with h1 | h1
      · exact Or.inr (h1 ▸ List.mem_cons_self _ _)
      · rcases ih p h1 with h2 | h2
        · exact Or.inl h2
        · exact Or.inr (List.mem_cons_of_mem _ h2)

lemma removeHandle_sublist (hs : List (String × Nat)) (handleId : String) :
    List.Sublist (removeHandle hs handleId) hs := by
  induction hs with
  | nil => simp [removeHandle]
  | cons p rest ih =>
    obtain ⟨k, w⟩ := p
    simp only [removeHandle]
    by_cases hk : k = handleId
    · rw [if_pos hk]
      exact List.sublist_cons_self _ _
    · rw [if_neg hk]
      exact List.Sublist.cons₂ _ ih

lemma not_mem_keys_removeHandle (hs : List (String × Nat)) (handleId : String)
    (h : (hs.map Prod.fst).Nodup) :
    handleId ∉ (removeHandle hs handleId).map Prod.fst := by
  induction hs with
  | nil => simp [removeHandle]
  | cons p rest ih =>
    obtain ⟨k, w⟩ := p
    simp only [List.map_cons, List.nodup_cons] at h
    simp only [removeHandle]
    by_cases hk : k = handleId
    · rw [if_pos hk]
      exact fun hm => h.1 (hk ▸ hm)
    · rw [if_neg hk]
      simp only [List.map_cons, List.mem_cons]
      rintro (rfl | hm)
      · exact hk rfl
      · exact ih h.2 hm

lemma find?_removeHandle_ne (hs : List (String × Nat)) (handleId k : String)
    (hne : k ≠ handleId) :
    (removeHandle hs handleId).find? (fun p => p.1 == k) =
      hs.find? (fun p => p.1 == k) := by
  induction hs with
  | nil => rfl
  | cons p rest ih =>
    obtain ⟨a, w⟩ := p
    simp only [removeHandle]
    by_cases ha : a = handleId
    · rw [if_pos ha]
      have hak : (a == k) = false := by
        simp only [beq_eq_false_iff_ne, ne_eq]
        exact fun hh => hne (ha ▸ hh).symm
      simp [List.find?_cons, hak]
    · rw [if_neg ha]
      by_cases hak : a = k
      · simp [List.find?_cons, hak]
      · have hak2 : (a == k) = false := by simp [hak]
        simp [List.find?_cons, hak2, ih]

lemma lookupHandle_eq_none_of_not_mem (st : RegState) (handleId : String)
    (h : handleId ∉ st.handles.map Prod.fst) : lookupHandle st handleId = none := by
  unfold lookupHandle
  have : st.handles.find? (fun p => p.1 == handleId) = none := by
    rw [List.find?_eq_none]
    intro p hp
    simp only [beq_iff_eq]
    exact fun hk => h (hk ▸ List.mem_map_of_mem Prod.fst hp)
  rw [this]

lemma mem_of_lookupHandle_eq_some (st : RegState) (handleId : String) (v : Nat)
    (h : lookupHandle st handleId = some v) : handleId ∈ st.handles.map Prod.fst := by
  unfold lookupHandle at h
  cases hf : st.handles.find? (fun p => p.1 == handleId) with
  | none => rw [hf] at h; exact absurd h (by simp)
  | some p =>
    have hp := List.find?_some hf
    have hm := List.mem_of_find?_eq_some hf
    simp only [beq_iff_eq] at hp
    exact hp ▸ List.mem_map_of_mem Prod.fst hm

/-! ### The registry invariant (C4) -/

/-- Invariant of the registry together with the trace of issued IDs:
the issued IDs are exactly the counter prefix of the ID scheme, live
keys are pairwise distinct, and every live key was issued. -/
def goodState (s : RegState × List String) : Prop :=
  s.2 = (List.range s.1.counter).map mkHandleId ∧
  (s.1.handles.map Prod.fst).Nodup ∧
  ∀ p ∈ s.1.handles, ∃ k, k < s.1.counter ∧ p.1 = mkHandleId k

lemma goodState_init : goodState (regInit, []) := by
  refine ⟨by simp [regInit], by simp [regInit], ?_⟩
  simp [regInit]

lemma disposeRun_counter (st : RegState) (handleId : String) :
    (disposeRun st handleId).counter = st.counter := by
  unfold disposeRun
  cases lookupHandle st handleId <;> rfl

lemma disposeRun_handles_sublist (st : RegState) (handleId : String) :
    List.Sublist (disposeRun st handleId).handles st.handles := by
  unfold disposeRun
  cases lookupHandle st handleId with
  | none => exact List.Sublist.refl _
  | some v => exact removeHandle_sublist _ _

lemma goodState_apply (s : RegState × List String) (op : RegOp)
    (h : goodState s) : goodState (applyRegOp s op) := by
  obtain ⟨st, issued⟩ := s
  obtain ⟨h1, h2, h3⟩ := h
  dsimp only at h1 h2 h3
  cases op with
  | create inst =>
    cases inst with
    | none => exact ⟨h1, h2, h3⟩
    | some i =>
      have hfresh : mkHandleId st.counter ∉ st.handles.map Prod.fst := by
        intro hm
        obtain ⟨p, hp, hpk⟩ := List.mem_map.mp hm
        obtain ⟨k, hk, hk2⟩ := h3 p hp
        have : k = st.counter := mkHandleId_inj (hk2 ▸ hpk)
        omega
      dsimp only [applyRegOp, createRun]
      refine ⟨?_, ?_, ?_⟩
      · dsimp only
        rw [h1, List.range_succ, List.map_append, List.map_cons, List.map_nil]
      · dsimp only
        rw [insertHandle_keys_of_not_mem _ _ _ hfresh]
        simp only [List.nodup_append, List.nodup_cons, List.nodup_nil]
        exact ⟨h2, ⟨by simp, trivial⟩, by simpa using hfresh⟩
      · intro p hp
        dsimp only at hp ⊢
        rcases mem_insertHandle _ _ _ p hp with h4 | h4
        · exact ⟨st.counter, by omega, h4 ▸ rfl⟩
        · obtain ⟨k, hk, hk2⟩ := h3 p h4
          exact ⟨k, by omega, hk2⟩
  | dispose handleId =>
    have hc := disposeRun_counter st handleId
    have hsub := disposeRun_handles_sublist st handleId
    dsimp only [applyRegOp]
    refine ⟨?_, ?_, ?_⟩
    · dsimp only
      rw [hc]
      exact h1
    · exact h2.sublist (hsub.map Prod.fst)
    · intro p hp
      obtain ⟨k, hk, hk2⟩ := h3 p (hsub.subset hp)
      refine ⟨k, ?_, hk2⟩
      dsimp only
      rw [hc]
      exact hk

lemma goodState_runRegOps (ops : List RegOp) : goodState (runRegOps ops) := by
  unfold runRegOps
  have key : ∀ s, goodState s → goodState (ops.foldl applyRegOp s) := by
    induction ops with
    | nil => exact fun s h => h
    | cons op ops ih => exact fun s h => ih _ (goodState_apply s op h)
  exact key _ goodState_init

lemma bitLenAux_le (fuel : Nat) :
    ∀ k n, k ≤ fuel → n < 2 ^ k → bitLenAux fuel n ≤ k := by
  induction fuel with
  | zero => intro k n _ _; simp [bitLenAux]
  | succ fuel ih =>
    intro k n hk hn
    unfold bitLenAux
    by_cases h0 : n = 0
    · simp [h0]
    · rw [if_neg h0]
      have hk1 : 1 ≤ k := by
        by_contra hh
        push_neg at hh
        interval_cases k
        simp at hn
        omega
      have hpow : 2 ^ k = 2 * 2 ^ (k - 1) := by
        conv_lhs => rw [← Nat.sub_add_cancel hk1]
        rw [pow_succ]
        ring
      have hdiv : n / 2 < 2 ^ (k - 1) := by omega
      have := ih (k - 1) (n / 2) (by omega) hdiv
      omega

lemma toDouble64_of_lt (n : Nat) (h : n < 2 ^ 53) : toDouble64 n = n := by
  have hb : bitLen n ≤ 53 := bitLenAux_le 64 53 n (by omega) h
  simp only [toDouble64, bitLen] at hb ⊢
  rw [if_pos hb]

lemma withHandle_none (st : RegState) (handleId : String)
    (k : Nat → Except String String) (h : lookupHandle st handleId = none) :
    withHandle st handleId k = Except.error "Invalid handle" := by
  unfold withHandle
  rw [h]

lemma withHandle_some (st : RegState) (handleId : String) (inst : Nat)
    (k : Nat → Except String String) (h : lookupHandle st handleId = some inst) :
    withHandle st handleId k = k inst := by
  unfold withHandle
  rw [h]

/-- A registry holding exactly one live handle, `"handle_0"`, as produced
by a single successful `create` from the initial state. -/
def regOne : RegState := ⟨[("handle_0", 0)], 1⟩

/-- An oracle answer: success with no payload (`data_ptr = nullptr`). -/
def okEmpty : FFIResult := ⟨true, none, none⟩

instance {ε α : Type} [DecidableEq ε] [DecidableEq α] : DecidableEq (Except ε α) :=
  fun a b =>
    match a, b with
    | Except.ok x, Except.ok y =>
      if h : x = y then isTrue (by rw [h])
      else isFalse (fun hc => h (Except.ok.inj hc))
    | Except.error x, Except.error y =>
      if h : x = y then isTrue (by rw [h])
      else isFalse (fun hc => h (Except.error.inj hc))
    | Except.ok _, Except.error _ => isFalse (fun hc => Except.noConfusion hc)
    | Except.error _, Except.ok _ => isFalse (fun hc => Except.noConfusion hc)

/-! ### Claims -/

/-- C4 (confirmed): across any sequence of create (`create`,
`createFromMsgpack`, `createFromCache`) and `dispose` calls, the issued
handle IDs are exactly `"handle_" ++ toString k` for the successive
counter values `0, 1, 2, …` in issuance order; no ID is ever issued
twice; no two live handles share an ID; and every live handle's ID was
issued. -/
theorem handle_ids_unique (ops : List RegOp) :
    (runRegOps ops).2 = (List.range (runRegOps ops).1.counter).map mkHandleId ∧
    (runRegOps ops).2.Nodup ∧
    ((runRegOps ops).1.handles.map Prod.fst).Nodup ∧
    ∀ p ∈ (runRegOps ops).1.handles, p.1 ∈ (runRegOps ops).2 := by
  obtain ⟨h1, h2, h3⟩ := goodState_runRegOps ops
  refine ⟨h1, ?_, h2, ?_⟩
  · rw [h1]
    exact List.Nodup.map mkHandleId_inj (List.nodup_range _)
  · intro p hp
    obtain ⟨k, hk, hk2⟩ := h3 p hp
    rw [h1, hk2]
    exact List.mem_map_of_mem _ (List.mem_range.mpr hk)

lemma disposeRun_of_lookup_none (st : RegState) (handleId : String)
    (h : lookupHandle st handleId = none) : disposeRun st handleId = st := by
  unfold disposeRun
  rw [h]

/-- C6 (confirmed): `dispose` removes the mapping when the handle is
live, is a no-op on an unknown handle, is idempotent, and leaves the
counter and every other entry untouched.  It never raises: `disposeRun`
is a total function into `RegState`. -/
theorem dispose_spec (st : RegState) (handleId : String)
    (hnd : (st.handles.map Prod.fst).Nodup) :
    (lookupHandle st handleId = none → disposeRun st handleId = st) ∧
    lookupHandle (disposeRun st handleId) handleId = none ∧
    (disposeRun st handleId).counter = st.counter ∧
    (∀ k, k ≠ handleId →
      lookupHandle (disposeRun st handleId) k = lookupHandle st k) ∧
    disposeRun (disposeRun st handleId) handleId = disposeRun st handleId := by
  have hnone : lookupHandle (disposeRun st handleId) handleId = none := by
    cases hl : lookupHandle st handleId with
    | none => rw [disposeRun_of_lookup_none st handleId hl]; exact hl
    | some v =>
      apply lookupHandle_eq_none_of_not_mem
      unfold disposeRun
      rw [hl]
      exact not_mem_keys_removeHandle st.handles handleId hnd
  refine ⟨disposeRun_of_lookup_none st handleId, hnone,
    disposeRun_counter st handleId, ?_, disposeRun_of_lookup_none _ _ hnone⟩
  intro k hk
  unfold disposeRun
  cases hl : lookupHandle st handleId with
  | none => rfl
  | some v =>
    unfold lookupHandle
    dsimp only
    rw [find?_removeHandle_ne _ _ _ hk]

/-- Witness for C6 at the one-handle registry. -/
theorem dispose_spec_witness :
    (regOne.handles.map Prod.fst).Nodup ∧
    lookupHandle (disposeRun regOne "handle_0") "handle_0" = none ∧
    (disposeRun regOne "handle_0").counter = regOne.counter ∧
    lookupHandle (disposeRun regOne "handle_0") "other" =
      lookupHandle regOne "other" ∧
    disposeRun (disposeRun regOne "handle_0") "handle_0" =
      disposeRun regOne "handle_0" := by
  have h := dispose_spec regOne "handle_0" (by decide)
  exact ⟨by decide, h.2.1, h.2.2.1, h.2.2.2.1 "other" (by decide), h.2.2.2.2⟩

/-- C9 (confirmed): the version query returns the native string
unchanged, returns `"unknown"` when the native call yields a null
pointer, and its body performs no release calls — the version string is
never passed to `json_eval_free_result` or `json_eval_free_string`. -/
theorem version_spec :
    versionRun none = "unknown" ∧
    (∀ v : String, versionRun (some v) = v) ∧
    (∀ o : Option String, versionReleaseCalls o = []) :=
  ⟨rfl, fun _ => rfl, fun _ => rfl⟩

/-- C10 (confirmed): on a live handle, when the native call succeeds,
the reload-schema operations (JSON, MessagePack and cache-key variants),
clear-cache, resolve-layout and evaluate-subform free the native payload
without reading it and resolve with the constant string `"{}"`, whatever
the payload was. -/
theorem discard_payload_ops (st : RegState)
    (handleId schema cacheKey subformPath data context pathsJson : String)
    (schemaMsgpack : List Nat) (evaluate : Bool) (inst : Nat)
    (o_reload_schema : Nat → String → Option String → Option String → FFIResult)
    (o_reload_schema_msgpack : Nat → List Nat → Option String → Option String → FFIResult)
    (o_reload_schema_from_cache : Nat → String → Option String → Option String → FFIResult)
    (o_clear_cache : Nat → FFIResult)
    (o_resolve_layout : Nat → Bool → FFIResult)
    (o_evaluate_subform : Nat → String → String → Option String → Option String → FFIResult)
    (h : lookupHandle st handleId = some inst)
    (h1 : (o_reload_schema inst schema (optStr context) (optStr data)).success = true)
    (h2 : (o_reload_schema_msgpack inst schemaMsgpack (optStr context)
      (optStr data)).success = true)
    (h3 : (o_reload_schema_from_cache inst cacheKey (optStr context)
      (optStr data)).success = true)
    (h4 : (o_clear_cache inst).success = true)
    (h5 : (o_resolve_layout inst evaluate).success = true)
    (h6 : (o_evaluate_subform inst subformPath data (optStr context)
      (optStr pathsJson)).success = true) :
    reloadSchemaAsyncRun st handleId schema context data o_reload_schema
      = Except.ok "\x7b\x7d" ∧
    reloadSchemaMsgpackAsyncRun st handleId schemaMsgpack context data
      o_reload_schema_msgpack = Except.ok "\x7b\x7d" ∧
    reloadSchemaFromCacheAsyncRun st handleId cacheKey context data
      o_reload_schema_from_cache = Except.ok "\x7b\x7d" ∧
    clearCacheAsyncRun st handleId o_clear_cache = Except.ok "\x7b\x7d" ∧
    resolveLayoutAsyncRun st handleId evaluate o_resolve_layout
      = Except.ok "\x7b\x7d" ∧
    evaluateSubformAsyncRun st handleId subformPath data context pathsJson
      o_evaluate_subform = Except.ok "\x7b\x7d" := by
  refine ⟨?_, ?_, ?_, ?_, ?_, ?_⟩
  · rw [reloadSchemaAsyncRun, withHandle_some _ _ _ _ h]
    simp [discardResult, h1]
  · rw [reloadSchemaMsgpackAsyncRun, withHandle_some _ _ _ _ h]
    simp [discardResult, h2]
  · rw [reloadSchemaFromCacheAsyncRun, withHandle_some _ _ _ _ h]
    simp [discardResult, h3]
  · rw [clearCacheAsyncRun, withHandle_some _ _ _ _ h]
    simp [discardResult, h4]
  · rw [resolveLayoutAsyncRun, withHandle_some _ _ _ _ h]
    simp [discardResult, h5]
  · rw [evaluateSubformAsyncRun, withHandle_some _ _ _ _ h]
    simp [discardResult, h6]

/-- Witness for C10: on the one-handle registry, with every native call
answering success with the non-empty payload `"PAYLOAD"`, all six
operations still resolve with `"{}"`. -/
theorem discard_payload_ops_witness :
    lookupHandle regOne "handle_0" = some 0 ∧
    (reloadSchemaAsyncRun regOne "handle_0" "s" "c" "d"
        (fun _ _ _ _ => ⟨true, some "PAYLOAD", none⟩) = Except.ok "\x7b\x7d" ∧
      reloadSchemaMsgpackAsyncRun regOne "handle_0" [1, 2] "c" "d"
        (fun _ _ _ _ => ⟨true, some "PAYLOAD", none⟩) = Except.ok "\x7b\x7d" ∧
      reloadSchemaFromCacheAsyncRun regOne "handle_0" "k" "c" "d"
        (fun _ _ _ _ => ⟨true, some "PAYLOAD", none⟩) = Except.ok "\x7b\x7d" ∧
      clearCacheAsyncRun regOne "handle_0"
        (fun _ => ⟨true, some "PAYLOAD", none⟩) = Except.ok "\x7b\x7d" ∧
      resolveLayoutAsyncRun regOne "handle_0" true
        (fun _ _ => ⟨true, some "PAYLOAD", none⟩) = Except.ok "\x7b\x7d" ∧
      evaluateSubformAsyncRun regOne "handle_0" "sub" "d" "c" "p"
        (fun _ _ _ _ _ => ⟨true, some "PAYLOAD", none⟩) = Except.ok "\x7b\x7d") :=
  ⟨by decide,
    discard_payload_ops regOne "handle_0" "s" "k" "sub" "d" "c" "p" [1, 2] true 0
      (fun _ _ _ _ => ⟨true, some "PAYLOAD", none⟩)
      (fun _ _ _ _ => ⟨true, some "PAYLOAD", none⟩)
      (fun _ _ _ _ => ⟨true, some "PAYLOAD", none⟩)
      (fun _ => ⟨true, some "PAYLOAD", none⟩)
      (fun _ _ => ⟨true, some "PAYLOAD", none⟩)
      (fun _ _ _ _ _ => ⟨true, some "PAYLOAD", none⟩)
      (by decide) (by decide) (by decide) (by decide) (by decide) (by decide)
      (by decide)⟩

/-- C2 counterexample: on a live handle, a successful native
evaluate-dependents call with an absent payload is marshaled to `"{}"`
by the primary operation — not to the documented default `"[]"`. -/
theorem evaluate_dependents_default_counterexample :
    evaluateDependentsAsyncRun regOne "handle_0" "p" "" "" false
        (fun _ _ _ _ _ => okEmpty) = Except.ok "\x7b\x7d" ∧
    evaluateDependentsAsyncRun regOne "handle_0" "p" "" "" false
        (fun _ _ _ _ _ => okEmpty) ≠ Except.ok "[]" := by
  constructor <;> decide

/-- C2 (corrected): on a live handle, a successful native call with an
empty or absent payload marshals to `"{}"` in the primary
evaluate-dependents operation and to `"[]"` in the subform variant. -/
theorem evaluate_dependents_empty_defaults (st : RegState)
    (handleId subformPath changedPath data context : String)
    (reEvaluate : Bool) (inst : Nat)
    (o_evaluate_dependents :
      Nat → String → Option String → Option String → Nat → FFIResult)
    (o_evaluate_dependents_subform :
      Nat → String → String → Option String → Option String → Nat → FFIResult)
    (h : lookupHandle st handleId = some inst)
    (h1s : (o_evaluate_dependents inst changedPath (optStr data) (optStr context)
      (if reEvaluate then 1 else 0)).success = true)
    (h1p : (o_evaluate_dependents inst changedPath (optStr data) (optStr context)
        (if reEvaluate then 1 else 0)).dataPtr = none ∨
      (o_evaluate_dependents inst changedPath (optStr data) (optStr context)
        (if reEvaluate then 1 else 0)).dataPtr = some "")
    (h2s : (o_evaluate_dependents_subform inst subformPath changedPath
      (optStr data) (optStr context) (if reEvaluate then 1 else 0)).success = true)
    (h2p : (o_evaluate_dependents_subform inst subformPath changedPath
        (optStr data) (optStr context) (if reEvaluate then 1 else 0)).dataPtr = none ∨
      (o_evaluate_dependents_subform inst subformPath changedPath
        (optStr data) (optStr context) (if reEvaluate then 1 else 0)).dataPtr = some "") :
    evaluateDependentsAsyncRun st handleId changedPath data context reEvaluate
      o_evaluate_dependents = Except.ok "\x7b\x7d" ∧
    evaluateDependentsSubformAsyncRun st handleId subformPath changedPath data
      context reEvaluate o_evaluate_dependents_subform = Except.ok "[]" := by
  constructor
  · rw [evaluateDependentsAsyncRun, withHandle_some _ _ _ _ h]
    rcases h1p with hp | hp <;> simp [marshalResult, h1s, hp]
  · rw [evaluateDependentsSubformAsyncRun, withHandle_some _ _ _ _ h]
    rcases h2p with hp | hp <;> simp [marshalResult, h2s, hp]

/-- Witness for C2 (amended form) at concrete inputs. -/
theorem evaluate_dependents_empty_defaults_witness :
    lookupHandle regOne "handle_0" = some 0 ∧
    (evaluateDependentsAsyncRun regOne "handle_0" "p" "" "" false
        (fun _ _ _ _ _ => okEmpty) = Except.ok "\x7b\x7d" ∧
      evaluateDependentsSubformAsyncRun regOne "handle_0" "sub" "p" "" "" false
        (fun _ _ _ _ _ _ => okEmpty) = Except.ok "[]") :=
  ⟨by decide,
    evaluate_dependents_empty_defaults regOne "handle_0" "sub" "p" "" "" false 0
      (fun _ _ _ _ _ => okEmpty) (fun _ _ _ _ _ _ => okEmpty)
      (by decide) (by decide) (Or.inl (by decide)) (by decide) (Or.inl (by decide))⟩

/-- C3 counterexample: a native-reported failure whose error field is
the empty string is settled as a *success*: the worker throws
`runtime_error("")`, the callback receives an empty error component,
and `runAsyncWithPromise` resolves the promise with the empty string
instead of rejecting. -/
theorem native_failure_empty_message_resolves :
    validateAsyncRun regOne "handle_0" "d" ""
        (fun _ _ _ => ⟨false, none, some ""⟩) = Except.error "" ∧
    settlePromise "VALIDATE_ERROR"
        (runAsyncCallback (validateAsyncRun regOne "handle_0" "d" ""
          (fun _ _ _ => ⟨false, none, some ""⟩)))
      = Settlement.resolved "" := by
  constructor <;> decide

/-- C3 (corrected): whenever a native call reports failure with a null
or non-empty error message, the marshaling layer throws with a non-empty
message (`"Unknown error"` when the field is null) and the generic
promise callback rejects with the call-site error code and that message
— it never resolves.  (A failure whose error field is the empty string
is instead resolved with `""`; see the counterexample.) -/
theorem native_failure_rejects (r : FFIResult) (errorCode : String)
    (hf : r.success = false) (hne : r.error ≠ some "") :
    errMsg r ≠ "" ∧
    (∀ defaultStr, marshalResult r defaultStr = Except.error (errMsg r)) ∧
    (∀ out, discardResult r out = Except.error (errMsg r)) ∧
    settlePromise errorCode (runAsyncCallback (Except.error (errMsg r)))
      = Settlement.rejected errorCode (errMsg r) := by
  have hmsg : errMsg r ≠ "" := by
    unfold errMsg
    cases he : r.error with
    | none => decide
    | some e =>
      dsimp only
      intro hc
      exact hne (by rw [he, hc])
  refine ⟨hmsg, ?_, ?_, ?_⟩
  · intro defaultStr
    unfold marshalResult
    rw [hf]
    simp
  · intro out
    unfold discardResult
    rw [hf]
    simp
  · unfold settlePromise runAsyncCallback
    have : (errMsg r).isEmpty = false := by
      rw [← Bool.not_eq_true, String.isEmpty_iff]
      exact hmsg
    simp [this]

/-- Witness for C3 (amended form) at a concrete failure descriptor. -/
theorem native_failure_rejects_witness :
    ((⟨false, none, some "boom"⟩ : FFIResult).success = false ∧
      (⟨false, none, some "boom"⟩ : FFIResult).error ≠ some "") ∧
    errMsg ⟨false, none, some "boom"⟩ ≠ "" ∧
    marshalResult ⟨false, none, some "boom"⟩ "\x7b\x7d"
      = Except.error (errMsg ⟨false, none, some "boom"⟩) ∧
    discardResult ⟨false, none, some "boom"⟩ "\x7b\x7d"
      = Except.error (errMsg ⟨false, none, some "boom"⟩) ∧
    settlePromise "EVALUATE_ERROR"
        (runAsyncCallback (Except.error (errMsg ⟨false, none, some "boom"⟩)))
      = Settlement.rejected "EVALUATE_ERROR" (errMsg ⟨false, none, some "boom"⟩) := by
  have h := native_failure_rejects ⟨false, none, some "boom"⟩ "EVALUATE_ERROR"
    (by decide) (by decide)
  exact ⟨⟨by decide, by decide⟩, h.1, h.2.1 "\x7b\x7d", h.2.2.1 "\x7b\x7d", h.2.2.2⟩

/-- C5 counterexample: a worker outcome of `Except.error ""` (a native
failure reported with an empty message, e.g. on the cache-length
operation) reaches the cache-length promise callback as a success with
an unparsable payload: `std::stoi("")` throws inside the `catch` block
and the promise is settled **zero** times. -/
theorem cache_len_empty_error_never_settles :
    cacheLenAsyncRun regOne "handle_0" (fun _ => ⟨false, none, some ""⟩)
      = Except.error "" ∧
    runAsyncDispatch (Except.error "") cacheLenPromiseCallback = [] := by
  constructor <;> decide

/-- C5 (corrected): every dispatched call settles its completion token
exactly once — through the generic promise callback on every worker
outcome, and through the cache-length promise callback on every worker
outcome other than a failure with an empty message (on which it settles
zero times; see the counterexample). -/
theorem settled_exactly_once (run : Except String String) (errorCode : String)
    (h : run ≠ Except.error "") :
    (runAsyncDispatch run (genericPromiseCallback errorCode)).length = 1 ∧
    (runAsyncDispatch run cacheLenPromiseCallback).length = 1 := by
  constructor
  · cases run with
    | ok r => rfl
    | error e => rfl
  · cases run with
    | ok r =>
      unfold runAsyncDispatch cacheLenPromiseCallback
      have h0 : ("" : String).isEmpty = true := rfl
      have h1 : ("stoi" : String).isEmpty = false := rfl
      cases hs : stoiOpt r with
      | some n => simp [h0, hs]
      | none => simp [h0, h1, hs]
    | error e =>
      have he : e ≠ "" := fun hc => h (by rw [hc])
      have : e.isEmpty = false := by
        rw [← Bool.not_eq_true, String.isEmpty_iff]
        exact he
      unfold runAsyncDispatch cacheLenPromiseCallback
      simp [this]

/-- Witness for C5 (amended form) on a successful run and a failing run. -/
theorem settled_exactly_once_witness :
    ((Except.ok "7" : Except String String) ≠ Except.error "" ∧
      (runAsyncDispatch (Except.ok "7") (genericPromiseCallback "E")).length = 1 ∧
      (runAsyncDispatch (Except.ok "7") cacheLenPromiseCallback).length = 1) ∧
    ((Except.error "boom" : Except String String) ≠ Except.error "" ∧
      (runAsyncDispatch (Except.error "boom")
        (genericPromiseCallback "E")).length = 1 ∧
      (runAsyncDispatch (Except.error "boom") cacheLenPromiseCallback).length = 1) :=
  ⟨⟨by decide, settled_exactly_once (Except.ok "7") "E" (by decide)⟩,
    ⟨by decide, settled_exactly_once (Except.error "boom") "E" (by decide)⟩⟩

/-- C7 counterexample: the C++ bridge returns the 64-bit compiled-logic
ID `2^53 + 1` exactly, but the Android JNI layer converts it with
`static_cast<jdouble>` and delivers `2^53` — not every nonzero 64-bit ID
survives the conversion. -/
theorem compile_logic_double_counterexample :
    compileLogicRun regOne "handle_0" "L" (fun _ _ => 9007199254740993)
      = Except.ok 9007199254740993 ∧
    nativeCompileLogicRun regOne "handle_0" "L" (fun _ _ => 9007199254740993)
      = Except.ok 9007199254740992 := by
  constructor <;> decide

/-- C7 (corrected): on a live handle, a native compiled-logic ID of `0`
raises and no ID is returned; a nonzero ID is returned exactly by the
C++ bridge, while the Android JNI layer delivers its binary64 rounding
`toDouble64`, which is exact for every ID below `2^53` but not for every
nonzero 64-bit ID. -/
theorem compile_logic_spec (st : RegState) (handleId logicStr : String)
    (inst : Nat) (json_eval_compile_logic : Nat → String → Nat)
    (h : lookupHandle st handleId = some inst) :
    (json_eval_compile_logic inst logicStr = 0 →
      compileLogicRun st handleId logicStr json_eval_compile_logic
        = Except.error "Failed to compile logic (received ID 0)" ∧
      nativeCompileLogicRun st handleId logicStr json_eval_compile_logic
        = Except.error "Failed to compile logic (received ID 0)") ∧
    (json_eval_compile_logic inst logicStr ≠ 0 →
      compileLogicRun st handleId logicStr json_eval_compile_logic
        = Except.ok (json_eval_compile_logic inst logicStr) ∧
      nativeCompileLogicRun st handleId logicStr json_eval_compile_logic
        = Except.ok (toDouble64 (json_eval_compile_logic inst logicStr))) ∧
    (json_eval_compile_logic inst logicStr < 2 ^ 53 →
      toDouble64 (json_eval_compile_logic inst logicStr)
        = json_eval_compile_logic inst logicStr) := by
  refine ⟨?_, ?_, fun hlt => toDouble64_of_lt _ hlt⟩
  · intro h0
    have hc : compileLogicRun st handleId logicStr json_eval_compile_logic
        = Except.error "Failed to compile logic (received ID 0)" := by
      unfold compileLogicRun
      rw [h]
      simp [h0]
    exact ⟨hc, by unfold nativeCompileLogicRun; rw [hc]; rfl⟩
  · intro h0
    have hc : compileLogicRun st handleId logicStr json_eval_compile_logic
        = Except.ok (json_eval_compile_logic inst logicStr) := by
      unfold compileLogicRun
      rw [h]
      simp [h0]
    exact ⟨hc, by unfold nativeCompileLogicRun; rw [hc]; rfl⟩

/-- Witness for C7 (amended form) at the ID `7`. -/
theorem compile_logic_spec_witness :
    lookupHandle regOne "handle_0" = some 0 ∧
    compileLogicRun regOne "handle_0" "L" (fun _ _ => 7) = Except.ok 7 ∧
    nativeCompileLogicRun regOne "handle_0" "L" (fun _ _ => 7)
      = Except.ok (toDouble64 7) ∧
    toDouble64 7 = 7 := by
  have h := compile_logic_spec regOne "handle_0" "L" 0 (fun _ _ => 7) (by decide)
  exact ⟨by decide, (h.2.1 (by decide)).1, (h.2.1 (by decide)).2,
    h.2.2 (by decide)⟩

/-- C8 (confirmed): on a live handle, the cache-length pipeline (bridge
marshal with default `"0"`, then `std::stoi` and integer boxing in the
JNI callback) resolves the promise with exactly `0`, `1` and `10000` for
the textual payloads `"0"`, `"1"` and `"10000"`, and with `0` for an
absent payload. -/
theorem cache_len_roundtrip (st : RegState) (handleId : String) (inst : Nat)
    (json_eval_cache_len : Nat → FFIResult)
    (h : lookupHandle st handleId = some inst)
    (hs : (json_eval_cache_len inst).success = true) :
    ((json_eval_cache_len inst).dataPtr = some "0" →
      runAsyncDispatch (cacheLenAsyncRun st handleId json_eval_cache_len)
        cacheLenPromiseCallback = [Settlement.resolvedInt 0]) ∧
    ((json_eval_cache_len inst).dataPtr = some "1" →
      runAsyncDispatch (cacheLenAsyncRun st handleId json_eval_cache_len)
        cacheLenPromiseCallback = [Settlement.resolvedInt 1]) ∧
    ((json_eval_cache_len inst).dataPtr = some "10000" →
      runAsyncDispatch (cacheLenAsyncRun st handleId json_eval_cache_len)
        cacheLenPromiseCallback = [Settlement.resolvedInt 10000]) ∧
    ((json_eval_cache_len inst).dataPtr = none →
      runAsyncDispatch (cacheLenAsyncRun st handleId json_eval_cache_len)
        cacheLenPromiseCallback = [Settlement.resolvedInt 0]) := by
  have hrun : cacheLenAsyncRun st handleId json_eval_cache_len
      = marshalResult (json_eval_cache_len inst) "0" := by
    rw [cacheLenAsyncRun, withHandle_some _ _ _ _ h]
  refine ⟨?_, ?_, ?_, ?_⟩ <;> intro hp <;>
    rw [hrun] <;> unfold marshalResult <;> rw [hs, hp, if_pos rfl] <;> decide

/-- Witness for C8 with the payload `"10000"` and with an absent
payload. -/
theorem cache_len_roundtrip_witness :
    lookupHandle regOne "handle_0" = some 0 ∧
    runAsyncDispatch (cacheLenAsyncRun regOne "handle_0"
        (fun _ => ⟨true, some "10000", none⟩)) cacheLenPromiseCallback
      = [Settlement.resolvedInt 10000] ∧
    runAsyncDispatch (cacheLenAsyncRun regOne "handle_0" (fun _ => okEmpty))
      cacheLenPromiseCallback = [Settlement.resolvedInt 0] := by
  have h1 := cache_len_roundtrip regOne "handle_0" 0
    (fun _ => ⟨true, some "10000", none⟩) (by decide) (by decide)
  have h2 := cache_len_roundtrip regOne "handle_0" 0 (fun _ => okEmpty)
    (by decide) (by decide)
  exact ⟨by decide, h1.2.2.1 (by decide), h2.2.2.2 (by decide)⟩

/-- C1 counterexample: `isCacheEnabled` on a handle unknown to the
registry does not fail with `InvalidHandleError`: it returns the default
value `false` (the oracle answering nonzero for every instance shows the
value does not come from the native call). -/
theorem is_cache_enabled_unknown_handle :
    lookupHandle regInit "handle_0" = none ∧
    isCacheEnabledRun regInit "handle_0" (fun _ => 1) = false := by
  constructor <;> decide

/-- C1 (corrected): every operation that takes a handle fails with
`InvalidHandleError` (`"Invalid handle"`) on a handle that is unknown or
disposed — except `isCacheEnabled`, which returns `false`, and
`cancel`/`dispose`, which are silent no-ops. -/
theorem invalid_handle_rejects_all (st : RegState)
    (handleId data context pathsJson schema cacheKey subformPath changedPath
      logicStr path schemaPath schemaPathsJson : String)
    (schemaMsgpack : List Nat) (logicId fmt : Nat)
    (skipLayout reEvaluate ev : Bool) (off : Int)
    (oEval : Nat → String → Option String → Option String → FFIResult)
    (oGes : Nat → Bool → FFIResult)
    (oRunLogic : Nat → Nat → Option String → Option String → FFIResult)
    (oValidate : Nat → String → Option String → FFIResult)
    (oEvalDeps : Nat → String → Option String → Option String → Nat → FFIResult)
    (oGesM : Nat → Bool → FFIResult)
    (oGsv : Nat → FFIResult)
    (oGeswp : Nat → Bool → FFIResult)
    (oGesbp : Nat → String → Bool → FFIResult)
    (oGesbps : Nat → String → Bool → Nat → FFIResult)
    (oGsbp : Nat → String → FFIResult)
    (oGsbps : Nat → String → Nat → FFIResult)
    (oRs : Nat → String → Option String → Option String → FFIResult)
    (oRsm : Nat → List Nat → Option String → Option String → FFIResult)
    (oRsc : Nat → String → Option String → Option String → FFIResult)
    (oCs : Nat → FFIResult)
    (oCc : Nat → FFIResult)
    (oCl : Nat → FFIResult)
    (oEc : Nat → FFIResult)
    (oDc : Nat → FFIResult)
    (oRlay : Nat → Bool → FFIResult)
    (oCarl : Nat → String → Option String → Option String → FFIResult)
    (oVp : Nat → String → Option String → Option String → FFIResult)
    (oEsub : Nat → String → String → Option String → Option String → FFIResult)
    (oVsub : Nat → String → String → Option String → FFIResult)
    (oEdsub : Nat → String → String → Option String → Option String → Nat → FFIResult)
    (oRlsub : Nat → String → Bool → FFIResult)
    (oGessub : Nat → String → Bool → FFIResult)
    (oGsvsub : Nat → String → FFIResult)
    (oGeswpsub : Nat → String → Bool → FFIResult)
    (oGesbpsub : Nat → String → String → Bool → FFIResult)
    (oGesbpssub : Nat → String → String → Bool → Nat → FFIResult)
    (oGsp : Nat → FFIResult)
    (oGsbpsub : Nat → String → String → FFIResult)
    (oGsbpssub : Nat → String → String → Nat → FFIResult)
    (oHsub : Nat → String → FFIResult)
    (oCompile : Nat → String → Nat)
    (oIce : Nat → Int)
    (h : lookupHandle st handleId = none) :
    evaluateAsyncRun st handleId data context pathsJson oEval oGes
      = Except.error "Invalid handle" ∧
    runLogicAsyncRun st handleId logicId data context oRunLogic
      = Except.error "Invalid handle" ∧
    validateAsyncRun st handleId data context oValidate
      = Except.error "Invalid handle" ∧
    evaluateDependentsAsyncRun st handleId changedPath data context reEvaluate
      oEvalDeps = Except.error "Invalid handle" ∧
    getEvaluatedSchemaAsyncRun st handleId skipLayout oGes
      = Except.error "Invalid handle" ∧
    getEvaluatedSchemaMsgpackAsyncRun st handleId skipLayout oGesM
      = Except.error "Invalid handle" ∧
    getSchemaValueAsyncRun st handleId oGsv = Except.error "Invalid handle" ∧
    getEvaluatedSchemaWithoutParamsAsyncRun st handleId skipLayout oGeswp
      = Except.error "Invalid handle" ∧
    getEvaluatedSchemaByPathAsyncRun st handleId path skipLayout oGesbp
      = Except.error "Invalid handle" ∧
    getEvaluatedSchemaByPathsAsyncRun st handleId pathsJson skipLayout fmt oGesbps
      = Except.error "Invalid handle" ∧
    getSchemaByPathAsyncRun st handleId path oGsbp
      = Except.error "Invalid handle" ∧
    getSchemaByPathsAsyncRun st handleId pathsJson fmt oGsbps
      = Except.error "Invalid handle" ∧
    reloadSchemaAsyncRun st handleId schema context data oRs
      = Except.error "Invalid handle" ∧
    reloadSchemaMsgpackAsyncRun st handleId schemaMsgpack context data oRsm
      = Except.error "Invalid handle" ∧
    reloadSchemaFromCacheAsyncRun st handleId cacheKey context data oRsc
      = Except.error "Invalid handle" ∧
    cacheStatsAsyncRun st handleId oCs = Except.error "Invalid handle" ∧
    clearCacheAsyncRun st handleId oCc = Except.error "Invalid handle" ∧
    cacheLenAsyncRun st handleId oCl = Except.error "Invalid handle" ∧
    enableCacheAsyncRun st handleId oEc = Except.error "Invalid handle" ∧
    disableCacheAsyncRun st handleId oDc = Except.error "Invalid handle" ∧
    resolveLayoutAsyncRun st handleId ev oRlay = Except.error "Invalid handle" ∧
    compileAndRunLogicAsyncRun st handleId logicStr data context oCarl
      = Except.error "Invalid handle" ∧
    validatePathsAsyncRun st handleId data context pathsJson oVp
      = Except.error "Invalid handle" ∧
    evaluateSubformAsyncRun st handleId subformPath data context pathsJson oEsub
      = Except.error "Invalid handle" ∧
    validateSubformAsyncRun st handleId subformPath data context oVsub
      = Except.error "Invalid handle" ∧
    evaluateDependentsSubformAsyncRun st handleId subformPath changedPath data
      context reEvaluate oEdsub = Except.error "Invalid handle" ∧
    resolveLayoutSubformAsyncRun st handleId subformPath ev oRlsub
      = Except.error "Invalid handle" ∧
    getEvaluatedSchemaSubformAsyncRun st handleId subformPath skipLayout oGessub
      = Except.error "Invalid handle" ∧
    getSchemaValueSubformAsyncRun st handleId subformPath oGsvsub
      = Except.error "Invalid handle" ∧
    getEvaluatedSchemaWithoutParamsSubformAsyncRun st handleId subformPath
      skipLayout oGeswpsub = Except.error "Invalid handle" ∧
    getEvaluatedSchemaByPathSubformAsyncRun st handleId subformPath schemaPath
      skipLayout oGesbpsub = Except.error "Invalid handle" ∧
    getEvaluatedSchemaByPathsSubformAsyncRun st handleId subformPath
      schemaPathsJson skipLayout fmt oGesbpssub = Except.error "Invalid handle" ∧
    getSubformPathsAsyncRun st handleId oGsp = Except.error "Invalid handle" ∧
    getSchemaByPathSubformAsyncRun st handleId subformPath schemaPath oGsbpsub
      = Except.error "Invalid handle" ∧
    getSchemaByPathsSubformAsyncRun st handleId subformPath schemaPathsJson fmt
      oGsbpssub = Except.error "Invalid handle" ∧
    hasSubformAsyncRun st handleId subformPath oHsub
      = Except.error "Invalid handle" ∧
    setTimezoneOffsetAsyncRun st handleId off = Except.error "Invalid handle" ∧
    compileLogicRun st handleId logicStr oCompile
      = Except.error "Invalid handle" ∧
    setTimezoneOffsetRun st handleId off = Except.error "Invalid handle" ∧
    isCacheEnabledRun st handleId oIce = false ∧
    cancelRun st handleId = st ∧
    disposeRun st handleId = st := by
  simp only [evaluateAsyncRun, runLogicAsyncRun, validateAsyncRun,
    evaluateDependentsAsyncRun, getEvaluatedSchemaAsyncRun,
    getEvaluatedSchemaMsgpackAsyncRun, getSchemaValueAsyncRun,
    getEvaluatedSchemaWithoutParamsAsyncRun, getEvaluatedSchemaByPathAsyncRun,
    getEvaluatedSchemaByPathsAsyncRun, getSchemaByPathAsyncRun,
    getSchemaByPathsAsyncRun, reloadSchemaAsyncRun, reloadSchemaMsgpackAsyncRun,
    reloadSchemaFromCacheAsyncRun, cacheStatsAsyncRun, clearCacheAsyncRun,
    cacheLenAsyncRun, enableCacheAsyncRun, disableCacheAsyncRun,
    resolveLayoutAsyncRun, compileAndRunLogicAsyncRun, validatePathsAsyncRun,
    evaluateSubformAsyncRun, validateSubformAsyncRun,
    evaluateDependentsSubformAsyncRun, resolveLayoutSubformAsyncRun,
    getEvaluatedSchemaSubformAsyncRun, getSchemaValueSubformAsyncRun,
    getEvaluatedSchemaWithoutParamsSubformAsyncRun,
    getEvaluatedSchemaByPathSubformAsyncRun,
    getEvaluatedSchemaByPathsSubformAsyncRun, getSubformPathsAsyncRun,
    getSchemaByPathSubformAsyncRun, getSchemaByPathsSubformAsyncRun,
    hasSubformAsyncRun, setTimezoneOffsetAsyncRun, compileLogicRun,
    setTimezoneOffsetRun, isCacheEnabledRun, cancelRun, disposeRun,
    withHandle, h, and_self]

/-- Witness for C1 (amended form): the fully concrete instantiation on
the empty registry. -/
theorem invalid_handle_rejects_all_witness :
    lookupHandle regInit "handle_0" = none ∧
    (evaluateAsyncRun regInit "handle_0" "" "" "" (fun _ _ _ _ => okEmpty)
        (fun _ _ => okEmpty) = Except.error "Invalid handle" ∧
      runLogicAsyncRun regInit "handle_0" 0 "" "" (fun _ _ _ _ => okEmpty)
        = Except.error "Invalid handle" ∧
      validateAsyncRun regInit "handle_0" "" "" (fun _ _ _ => okEmpty)
        = Except.error "Invalid handle" ∧
      evaluateDependentsAsyncRun regInit "handle_0" "" "" "" false
        (fun _ _ _ _ _ => okEmpty) = Except.error "Invalid handle" ∧
      getEvaluatedSchemaAsyncRun regInit "handle_0" false (fun _ _ => okEmpty)
        = Except.error "Invalid handle" ∧
      getEvaluatedSchemaMsgpackAsyncRun regInit "handle_0" false
        (fun _ _ => okEmpty) = Except.error "Invalid handle" ∧
      getSchemaValueAsyncRun regInit "handle_0" (fun _ => okEmpty)
        = Except.error "Invalid handle" ∧
      getEvaluatedSchemaWithoutParamsAsyncRun regInit "handle_0" false
        (fun _ _ => okEmpty) = Except.error "Invalid handle" ∧
      getEvaluatedSchemaByPathAsyncRun regInit "handle_0" "" false
        (fun _ _ _ => okEmpty) = Except.error "Invalid handle" ∧
      getEvaluatedSchemaByPathsAsyncRun regInit "handle_0" "" false 0
        (fun _ _ _ _ => okEmpty) = Except.error "Invalid handle" ∧
      getSchemaByPathAsyncRun regInit "handle_0" "" (fun _ _ => okEmpty)
        = Except.error "Invalid handle" ∧
      getSchemaByPathsAsyncRun regInit "handle_0" "" 0 (fun _ _ _ => okEmpty)
        = Except.error "Invalid handle" ∧
      reloadSchemaAsyncRun regInit "handle_0" "" "" "" (fun _ _ _ _ => okEmpty)
        = Except.error "Invalid handle" ∧
      reloadSchemaMsgpackAsyncRun regInit "handle_0" [] "" ""
        (fun _ _ _ _ => okEmpty) = Except.error "Invalid handle" ∧
      reloadSchemaFromCacheAsyncRun regInit "handle_0" "" "" ""
        (fun _ _ _ _ => okEmpty) = Except.error "Invalid handle" ∧
      cacheStatsAsyncRun regInit "handle_0" (fun _ => okEmpty)
        = Except.error "Invalid handle" ∧
      clearCacheAsyncRun regInit "handle_0" (fun _ => okEmpty)
        = Except.error "Invalid handle" ∧
      cacheLenAsyncRun regInit "handle_0" (fun _ => okEmpty)
        = Except.error "Invalid handle" ∧
      enableCacheAsyncRun regInit "handle_0" (fun _ => okEmpty)
        = Except.error "Invalid handle" ∧
      disableCacheAsyncRun regInit "handle_0" (fun _ => okEmpty)
        = Except.error "Invalid handle" ∧
      resolveLayoutAsyncRun regInit "handle_0" false (fun _ _ => okEmpty)
        = Except.error "Invalid handle" ∧
      compileAndRunLogicAsyncRun regInit "handle_0" "" "" ""
        (fun _ _ _ _ => okEmpty) = Except.error "Invalid handle" ∧
      validatePathsAsyncRun regInit "handle_0" "" "" "" (fun _ _ _ _ => okEmpty)
        = Except.error "Invalid handle" ∧
      evaluateSubformAsyncRun regInit "handle_0" "" "" "" ""
        (fun _ _ _ _ _ => okEmpty) = Except.error "Invalid handle" ∧
      validateSubformAsyncRun regInit "handle_0" "" "" ""
        (fun _ _ _ _ => okEmpty) = Except.error "Invalid handle" ∧
      evaluateDependentsSubformAsyncRun regInit "handle_0" "" "" "" "" false
        (fun _ _ _ _ _ _ => okEmpty) = Except.error "Invalid handle" ∧
      resolveLayoutSubformAsyncRun regInit "handle_0" "" false
        (fun _ _ _ => okEmpty) = Except.error "Invalid handle" ∧
      getEvaluatedSchemaSubformAsyncRun regInit "handle_0" "" false
        (fun _ _ _ => okEmpty) = Except.error "Invalid handle" ∧
      getSchemaValueSubformAsyncRun regInit "handle_0" "" (fun _ _ => okEmpty)
        = Except.error "Invalid handle" ∧
      getEvaluatedSchemaWithoutParamsSubformAsyncRun regInit "handle_0" "" false
        (fun _ _ _ => okEmpty) = Except.error "Invalid handle" ∧
      getEvaluatedSchemaByPathSubformAsyncRun regInit "handle_0" "" "" false
        (fun _ _ _ _ => okEmpty) = Except.error "Invalid handle" ∧
      getEvaluatedSchemaByPathsSubformAsyncRun regInit "handle_0" "" "" false 0
        (fun _ _ _ _ _ => okEmpty) = Except.error "Invalid handle" ∧
      getSubformPathsAsyncRun regInit "handle_0" (fun _ => okEmpty)
        = Except.error "Invalid handle" ∧
      getSchemaByPathSubformAsyncRun regInit "handle_0" "" ""
        (fun _ _ _ => okEmpty) = Except.error "Invalid handle" ∧
      getSchemaByPathsSubformAsyncRun regInit "handle_0" "" "" 0
        (fun _ _ _ _ => okEmpty) = Except.error "Invalid handle" ∧
      hasSubformAsyncRun regInit "handle_0" "" (fun _ _ => okEmpty)
        = Except.error "Invalid handle" ∧
      setTimezoneOffsetAsyncRun regInit "handle_0" 0
        = Except.error "Invalid handle" ∧
      compileLogicRun regInit "handle_0" "" (fun _ _ => 1)
        = Except.error "Invalid handle" ∧
      setTimezoneOffsetRun regInit "handle_0" 0
        = Except.error "Invalid handle" ∧
      isCacheEnabledRun regInit "handle_0" (fun _ => 1) = false ∧
      cancelRun regInit "handle_0" = regInit ∧
      disposeRun regInit "handle_0" = regInit) :=
  ⟨rfl,
    invalid_handle_rejects_all regInit "handle_0" "" "" "" "" "" "" "" "" "" ""
      "" [] 0 0 false false false 0
      (fun _ _ _ _ => okEmpty) (fun _ _ => okEmpty) (fun _ _ _ _ => okEmpty)
      (fun _ _ _ => okEmpty) (fun _ _ _ _ _ => okEmpty) (fun _ _ => okEmpty)
      (fun _ => okEmpty) (fun _ _ => okEmpty) (fun _ _ _ => okEmpty)
      (fun _ _ _ _ => okEmpty) (fun _ _ => okEmpty) (fun _ _ _ => okEmpty)
      (fun _ _ _ _ => okEmpty) (fun _ _ _ _ => okEmpty) (fun _ _ _ _ => okEmpty)
      (fun _ => okEmpty) (fun _ => okEmpty) (fun _ => okEmpty)
      (fun _ => okEmpty) (fun _ => okEmpty) (fun _ _ => okEmpty)
      (fun _ _ _ _ => okEmpty) (fun _ _ _ _ => okEmpty)
      (fun _ _ _ _ _ => okEmpty) (fun _ _ _ _ => okEmpty)
      (fun _ _ _ _ _ _ => okEmpty) (fun _ _ _ => okEmpty)
      (fun _ _ _ => okEmpty) (fun _ _ => okEmpty) (fun _ _ _ => okEmpty)
      (fun _ _ _ _ => okEmpty) (fun _ _ _ _ _ => okEmpty) (fun _ => okEmpty)
      (fun _ _ _ => okEmpty) (fun _ _ _ _ => okEmpty) (fun _ _ => okEmpty)
      (fun _ _ => 1) (fun _ => 1) rfl⟩

end jsoneval
